import Mathlib

/-!
Verification of `scripts/train.py` from the Covid19-detection-by-Neural-Network
repository.

The script is orchestration glue around an ML framework.  We embed:

* the training dataset object as seen by the script: its `class_indices`
  mapping (class name → integer label, a Python dict, here an association
  list in insertion order) and its `classes` array (one integer label per
  sample);
* `get_class_weights`, which builds a Python dict from labels to rational
  weights `(1/n) * (total / n_classes)` and raises `ZeroDivisionError`
  when a class has no samples (modelled as `Option`);
* `get_callbacks` and the path computations of `main`;
* `main` itself as a function from an abstract environment (command-line
  arguments, filesystem precondition, loaded dataset) to a trace of the
  externally observable calls it makes, together with an optional error.

Real numbers of the script (`float`) are modelled as `ℚ`; the weight
formula only involves exact divisions of integers.
-/

/-- The part of the framework dataset object that `train.py` reads:
`class_indices` (dict from class name to label, in insertion order) and
`classes` (label of each sample). -/
structure Dataset where
  class_indices : List (String × Nat)
  classes : List Nat
deriving DecidableEq, Repr

/-- A Python dict from integer labels to rational weights, as an
association list without duplicate keys (insertion order kept,
re-insertion of an existing key overwrites in place). -/
abbrev WeightDict := List (Nat × ℚ)

/-- Lookup in a label-keyed dict (`d[k]`, `none` for a missing key). -/
def dictLookup : WeightDict → Nat → Option ℚ
  | [], _ => none
  | (k', v) :: rest, k => if k' = k then some v else dictLookup rest k

/-- Assignment `d[k] = v` on a Python dict: overwrite the existing entry
for `k` in place, or append a new entry at the end. -/
def dictInsert : WeightDict → Nat → ℚ → WeightDict
  | [], k, v => [(k, v)]
  | (k', v') :: rest, k, v =>
      if k' = k then (k, v) :: rest else (k', v') :: dictInsert rest k v

/-- `len(np.where(classes == label)[0])`: the number of samples carrying
a given label. -/
def countLabel (classes : List Nat) (label : Nat) : Nat :=
  (classes.filter (fun c => c = label)).length

/-- The loop body of `get_class_weights`: iterate over the
`class_indices` items, computing `(1 / n) * (total / n_classes)` for
each class; Python raises `ZeroDivisionError` (here `none`) as soon as a
class has `n = 0` samples. -/
def gcwLoop (classes : List Nat) (total n_classes : Nat) :
    List (String × Nat) → WeightDict → Option WeightDict
  | [], d => some d
  | (_, class_label) :: rest, d =>
      if countLabel classes class_label = 0 then none
      else
        gcwLoop classes total n_classes rest
          (dictInsert d class_label
            ((1 / (countLabel classes class_label : ℚ)) *
              ((total : ℚ) / (n_classes : ℚ))))

/-- `get_class_weights(train_ds)` from `train.py`:
`total = train_ds.classes.shape[0]`, `n_classes = len(train_ds.class_indices)`,
then one dict entry `class_weights[class_label] = (1/n) * (total/n_classes)`
per item of `class_indices`. -/
def get_class_weights (train_ds : Dataset) : Option WeightDict :=
  gcwLoop train_ds.classes train_ds.classes.length
    train_ds.class_indices.length train_ds.class_indices []


/-- The frequency-weighted sum of the class weights: over all classes
`c` of `class_indices`, `(n_c / total) * weight(c)`. -/
def freqWeightedSum (ds : Dataset) (w : WeightDict) : ℚ :=
  (ds.class_indices.map (fun p =>
    ((countLabel ds.classes p.2 : ℚ) / (ds.classes.length : ℚ)) *
      ((dictLookup w p.2).getD 0))).sum

/-- Training settings of `train.py` (module-level constants). -/
def LR : ℚ := 1 / 10000

/-- Learning rate for fine-tuning, `LR / 10`. -/
def LR_FT : ℚ := LR / 10

/-- Epochs for the classifier phase. -/
def EPOCHS : Nat := 20

/-- Epochs for the fine-tuning phase. -/
def EPOCHS_FT : Nat := 10

/-- Layer at which fine-tuning starts. -/
def FINE_TUNE_AT : Nat := 150

/-- The callback configuration built by `get_callbacks`: a
`ModelCheckpoint` on a filepath template, an `EarlyStopping`, and a
`TensorBoard` writer. -/
structure Callbacks where
  filepath_checkpoint : String
  save_weights_only : Bool
  early_stopping_monitor : String
  early_stopping_patience : Nat
  log_dir : String
deriving DecidableEq, Repr

/-- `get_callbacks(checkpoints_path, logs_path)` from `train.py`:
the checkpoint filepath is `checkpoints_path / '\x7bepoch:02d\x7d.h5'`
rendered as a string, and TensorBoard logs go to `logs_path`. -/
def get_callbacks (checkpoints_path logs_path : String) : Callbacks :=
  { filepath_checkpoint := checkpoints_path ++ "/\x7bepoch:02d\x7d.h5"
    save_weights_only := true
    early_stopping_monitor := "loss"
    early_stopping_patience := 5
    log_dir := logs_path }

/-- A natural number printed in Python `02d` format (zero-padded to
width two). -/
def pad2 (n : Nat) : String :=
  if n < 10 then "0" ++ toString n else toString n

/-- Modelled from the spec: the training framework's `ModelCheckpoint`
callback (external to this repository) instantiates the `epoch:02d`
placeholder of the checkpoint filepath template, writing one weight
file per epoch named by the zero-padded epoch number under the
checkpoints directory. -/
def checkpointFileForEpoch (checkpoints_path : String) (epoch : Nat) : String :=
  checkpoints_path ++ "/" ++ pad2 epoch ++ ".h5"

/-- Python dict lookup `class_indices[name]` by class name (`none`
models a `KeyError`). -/
def lookupIndex : List (String × Nat) → String → Option Nat
  | [], _ => none
  | (nm, lb) :: rest, key => if nm = key then some lb else lookupIndex rest key

/-- The errors `main` can raise at this level of abstraction. -/
inductive TrainError where
  | fileExists (path : String)
  | keyError (key : String)
  | zeroDivision
deriving DecidableEq, Repr

/-- The externally observable calls `main` makes, in order: directory
creation, dataset loading, model instantiation, the two training
phases (with their hyperparameters, callbacks and class weights),
weight saving, and plotting. -/
inductive Event where
  | mkdir (path : String)
  | loadDataset (path : String)
  | instantiateModel
  | fitClassifier (lr : ℚ) (epochs initial_epoch : Nat) (cb : Callbacks)
      (cw : Option WeightDict)
  | saveWeights (path : String)
  | fineTune (lr : ℚ) (epochs initial_epoch : Nat) (cb : Callbacks)
      (fine_tune_at : Nat) (cw : Option WeightDict)
  | plotLearningCurves (save_path : String)
deriving DecidableEq, Repr

/-- The inputs `main` depends on: the two command-line paths, whether
`--class-weights` was given, whether the output directory already
exists, the training dataset found under `data/train`, and the last
epoch index reported by the first training phase. -/
structure Env where
  data : String
  model : String
  class_weights_flag : Bool
  model_dir_exists : Bool
  train_ds : Dataset
  last_epoch : Nat
deriving DecidableEq, Repr

/-- `main()` from `train.py`, as a trace of observable events plus an
optional error.  It checks the output directory, creates the output
directories, loads the two dataset splits, looks up the `covid-19`
label, optionally computes class weights, then trains in two phases,
saving weights after each, and plots the learning curves. -/
def mainRun (env : Env) : List Event × Option TrainError :=
  if env.model_dir_exists then
    ([], some (TrainError.fileExists env.model))
  else
    let logs_path := env.model ++ "/logs"
    let checkpoints_path := env.model ++ "/checkpoints"
    let plots_path := env.model ++ "/training"
    let model_path_no_ft := env.model ++ "/model_no_ft.h5"
    let model_path := env.model ++ "/model.h5"
    let setup := [Event.mkdir env.model, Event.mkdir checkpoints_path,
                  Event.mkdir plots_path,
                  Event.loadDataset (env.data ++ "/train"),
                  Event.loadDataset (env.data ++ "/validation")]
    match lookupIndex env.train_ds.class_indices "covid-19" with
    | none => (setup, some (TrainError.keyError "covid-19"))
    | some _covid19_label =>
      match (if env.class_weights_flag then
               (get_class_weights env.train_ds).map some
             else some none) with
      | none => (setup, some TrainError.zeroDivision)
      | some class_weights =>
        let callbacks := get_callbacks checkpoints_path logs_path
        (setup ++
          [Event.instantiateModel,
           Event.fitClassifier LR EPOCHS 0 callbacks class_weights,
           Event.saveWeights model_path_no_ft,
           Event.fineTune LR_FT EPOCHS_FT (env.last_epoch + 1) callbacks
             FINE_TUNE_AT class_weights,
           Event.saveWeights model_path,
           Event.plotLearningCurves plots_path],
         none)

/-- The imbalanced dataset of the spec: class counts A = 100, B = 900. -/
def dsImbalanced : Dataset :=
  ⟨[("A", 0), ("B", 1)], List.replicate 100 0 ++ List.replicate 900 1⟩

/-- A balanced two-class dataset with one sample per class. -/
def dsBalanced : Dataset := ⟨[("A", 0), ("B", 1)], [0, 1]⟩

/-- A dataset in which class `A` (label 0) has zero samples. -/
def dsEmptyClass : Dataset := ⟨[("A", 0), ("B", 1)], [1, 1]⟩

/-- A well-formed COVIDx-style training dataset containing `covid-19`. -/
def dsCovid : Dataset :=
  ⟨[("covid-19", 0), ("normal", 1), ("pneumonia", 2)], [0, 1, 2]⟩

/-- A training dataset with no `covid-19` class. -/
def dsNoCovid : Dataset := ⟨[("normal", 0), ("pneumonia", 1)], [0, 1]⟩

/-- An invocation whose output directory already exists. -/
def envExisting : Env := ⟨"covidx", "out", false, true, dsCovid, 19⟩

/-- A successful invocation without `--class-weights`. -/
def envPlain : Env := ⟨"covidx", "out", false, false, dsCovid, 19⟩

/-- A successful invocation with `--class-weights`. -/
def envWeighted : Env := ⟨"covidx", "out", true, false, dsCovid, 19⟩

/-- An invocation on a dataset with no `covid-19` class. -/
def envNoCovid : Env := ⟨"covidx", "out", false, false, dsNoCovid, 19⟩

/-- The weight `(1 / n) * (total / n_classes)` computed for one class by
`get_class_weights`, with `n` the number of samples of that class. -/
def classWeight (classes : List Nat) (total n_classes label : Nat) : ℚ :=
  (1 / (countLabel classes label : ℚ)) * ((total : ℚ) / (n_classes : ℚ))

lemma gcwLoop_eq (classes : List Nat) (total n_classes : Nat)
    (nm : String) (lb : Nat) (rest : List (String × Nat)) (d : WeightDict) :
    gcwLoop classes total n_classes ((nm, lb) :: rest) d =
      if countLabel classes lb = 0 then none
      else gcwLoop classes total n_classes rest
        (dictInsert d lb (classWeight classes total n_classes lb)) := rfl

lemma dictLookup_insert_self (d : WeightDict) (k : Nat) (v : ℚ) :
    dictLookup (dictInsert d k v) k = some v := by
  induction d with
  | nil => simp [dictInsert, dictLookup]
  | cons p rest ih =>
    obtain ⟨k', v'⟩ := p
    by_cases h : k' = k
    · simp [dictInsert, dictLookup, h]
    · simp [dictInsert, dictLookup, h, ih]

lemma dictLookup_insert_ne (d : WeightDict) (k : Nat) (v : ℚ) (k' : Nat)
    (h : k ≠ k') : dictLookup (dictInsert d k v) k' = dictLookup d k' := by
  induction d with
  | nil => simp [dictInsert, dictLookup, h]
  | cons p rest ih =>
    obtain ⟨k₀, v₀⟩ := p
    by_cases h₀ : k₀ = k
    · subst h₀
      simp [dictInsert, dictLookup, h]
    · simp only [dictInsert, if_neg h₀, dictLookup]
      by_cases h₁ : k₀ = k'
      · simp [h₁]
      · simp [h₁, ih]

/-- Labels not iterated over by the loop keep their incoming dict entry. -/
lemma gcwLoop_lookup_not_mem (classes : List Nat) (total n_classes : Nat) :
    ∀ (l : List (String × Nat)) (d w : WeightDict) (k : Nat),
      gcwLoop classes total n_classes l d = some w →
      k ∉ l.map Prod.snd → dictLookup w k = dictLookup d k := by
  intro l
  induction l with
  | nil =>
    intro d w k h _
    simp only [gcwLoop] at h
    cases h
    rfl
  | cons p rest ih =>
    intro d w k h hk
    obtain ⟨nm, lb⟩ := p
    rw [gcwLoop_eq] at h
    by_cases h0 : countLabel classes lb = 0
    · simp [h0] at h
    · rw [if_neg h0] at h
      simp only [List.map_cons, List.mem_cons] at hk
      push_neg at hk
      rw [ih _ w k h hk.2, dictLookup_insert_ne _ _ _ _ (Ne.symm hk.1)]

/-- Every label iterated over by the loop ends up mapped to its weight
`(1/n) * (total/n_classes)` in the final dict. -/
lemma gcwLoop_lookup_mem (classes : List Nat) (total n_classes : Nat) :
    ∀ (l : List (String × Nat)) (d w : WeightDict) (k : Nat),
      gcwLoop classes total n_classes l d = some w →
      k ∈ l.map Prod.snd →
      dictLookup w k = some (classWeight classes total n_classes k) := by
  intro l
  induction l with
  | nil =>
    intro d w k _ hk
    simp at hk
  | cons p rest ih =>
    intro d w k h hk
    obtain ⟨nm, lb⟩ := p
    rw [gcwLoop_eq] at h
    by_cases h0 : countLabel classes lb = 0
    · simp [h0] at h
    · rw [if_neg h0] at h
      by_cases hr : k ∈ rest.map Prod.snd
      · exact ih _ w k h hr
      · simp only [List.map_cons, List.mem_cons] at hk
        rcases hk with hk | hk
        · subst hk
          rw [gcwLoop_lookup_not_mem classes total n_classes rest _ w k h hr,
            dictLookup_insert_self]
        · exact absurd hk hr

/-- If the loop succeeds, every iterated label has at least one sample. -/
lemma gcwLoop_count_pos (classes : List Nat) (total n_classes : Nat) :
    ∀ (l : List (String × Nat)) (d w : WeightDict) (k : Nat),
      gcwLoop classes total n_classes l d = some w →
      k ∈ l.map Prod.snd → 0 < countLabel classes k := by
  intro l
  induction l with
  | nil =>
    intro d w k _ hk
    simp at hk
  | cons p rest ih =>
    intro d w k h hk
    obtain ⟨nm, lb⟩ := p
    rw [gcwLoop_eq] at h
    by_cases h0 : countLabel classes lb = 0
    · simp [h0] at h
    · rw [if_neg h0] at h
      simp only [List.map_cons, List.mem_cons] at hk
      rcases hk with hk | hk
      · subst hk
        exact Nat.pos_of_ne_zero h0
      · exact ih _ w k h hk

lemma countLabel_le_length (classes : List Nat) (k : Nat) :
    countLabel classes k ≤ classes.length :=
  List.length_filter_le _ _

lemma countLabel_append (a b : List Nat) (k : Nat) :
    countLabel (a ++ b) k = countLabel a k + countLabel b k := by
  simp [countLabel, List.filter_append]

lemma countLabel_replicate (n a k : Nat) :
    countLabel (List.replicate n a) k = if a = k then n else 0 := by
  induction n with
  | zero => simp [countLabel]
  | succ m ih =>
    rw [List.replicate_succ]
    by_cases h : a = k <;>
      simp only [countLabel, List.filter_cons, h, decide_True, decide_False,
        List.length_cons, if_true, if_false] at ih ⊢ <;>
      simp [ih, h]

lemma gcw_balanced : get_class_weights dsBalanced = some [(0, 1), (1, 1)] := by
  norm_num [get_class_weights, dsBalanced, gcwLoop, dictInsert, countLabel,
    List.filter]

lemma gcw_imbalanced :
    get_class_weights dsImbalanced = some [(0, 5), (1, 5 / 9)] := by
  norm_num [get_class_weights, dsImbalanced, gcwLoop, dictInsert,
    countLabel_append, countLabel_replicate]

/-- For every class of a dataset on which `get_class_weights` succeeds,
its weight times its sample count is `total / n_classes`. -/
lemma weight_mul_count (ds : Dataset) (w : WeightDict) (l : Nat)
    (h : get_class_weights ds = some w)
    (hmem : l ∈ ds.class_indices.map Prod.snd) :
    ((dictLookup w l).getD 0) * (countLabel ds.classes l : ℚ) =
      (ds.classes.length : ℚ) / (ds.class_indices.length : ℚ) := by
  have hl := gcwLoop_lookup_mem ds.classes ds.classes.length
    ds.class_indices.length ds.class_indices [] w l h hmem
  have hpos := gcwLoop_count_pos ds.classes ds.classes.length
    ds.class_indices.length ds.class_indices [] w l h hmem
  have hn : (countLabel ds.classes l : ℚ) ≠ 0 := by
    exact_mod_cast Nat.pos_iff_ne_zero.mp hpos
  rw [hl]
  simp only [Option.getD_some, classWeight]
  field_simp
  rw [mul_comm ((countLabel ds.classes l : ℚ)) ((ds.class_indices.length : ℚ))]
  exact mul_div_mul_right _ _ hn

/-- Claim C1: for every training dataset whose `class_indices` maps each
class name to a label and whose `classes` array lists one label per
sample, `get_class_weights` returns for every class the weight
`(1/n) * (total_samples / n_classes)`; in particular, for class counts
A = 100 and B = 900 with total 1000 and 2 classes, the weight of A is 5
and the weight of B is 5/9. -/
theorem C1_class_weight_formula :
    (∀ (ds : Dataset) (w : WeightDict) (name : String) (label : Nat),
        get_class_weights ds = some w →
        (name, label) ∈ ds.class_indices →
        dictLookup w label =
          some ((1 / (countLabel ds.classes label : ℚ)) *
            ((ds.classes.length : ℚ) / (ds.class_indices.length : ℚ)))) ∧
    dictLookup ((get_class_weights dsImbalanced).getD []) 0 = some 5 ∧
    dictLookup ((get_class_weights dsImbalanced).getD []) 1 = some (5 / 9) := by
  refine ⟨?_, ?_, ?_⟩
  · intro ds w name label h hmem
    have hm : label ∈ ds.class_indices.map Prod.snd :=
      List.mem_map_of_mem Prod.snd hmem
    have := gcwLoop_lookup_mem ds.classes ds.classes.length
      ds.class_indices.length ds.class_indices [] w label h hm
    rw [this]
    simp [classWeight]
  · rw [gcw_imbalanced]
    rfl
  · rw [gcw_imbalanced]
    rfl

/-- Witness for C1 at the balanced dataset: the weight of class `A`
(label 0, one sample out of two, two classes) is `(1/1) * (2/2)`. -/
theorem C1_class_weight_formula_witness :
    dictLookup [((0 : Nat), (1 : ℚ)), (1, 1)] 0 =
      some ((1 / (countLabel dsBalanced.classes 0 : ℚ)) *
        ((dsBalanced.classes.length : ℚ) / (dsBalanced.class_indices.length : ℚ))) :=
  C1_class_weight_formula.1 dsBalanced [(0, 1), (1, 1)] "A" 0 gcw_balanced
    (by simp [dsBalanced])

/-- Claim C2 counterexample: on the balanced dataset (one sample in
each of two classes) `get_class_weights` succeeds, yet the
frequency-weighted sum of the weights is 1, not the number of
classes 2. -/
theorem C2_counterexample :
    get_class_weights dsBalanced = some [(0, 1), (1, 1)] ∧
    freqWeightedSum dsBalanced [(0, 1), (1, 1)] = 1 ∧
    ¬ freqWeightedSum dsBalanced [(0, 1), (1, 1)] =
        (dsBalanced.class_indices.length : ℚ) := by
  refine ⟨gcw_balanced, ?_, ?_⟩ <;>
    norm_num [freqWeightedSum, dsBalanced, countLabel, dictLookup, List.filter]

/-- Claim C2 (amended): for every dataset with at least one class and at
least one sample in each class, the frequency-weighted sum of the class
weights — over all classes `c`, `(n_c / total) * weight(c)` — equals 1
(each class contributes `1 / n_classes`), not the number of classes. -/
theorem C2_freq_weighted_sum (ds : Dataset) (w : WeightDict)
    (h : get_class_weights ds = some w) (hne : ds.class_indices ≠ []) :
    freqWeightedSum ds w = 1 := by
  have hnc : (0 : ℚ) < (ds.class_indices.length : ℚ) := by
    have := List.length_pos.mpr hne
    exact_mod_cast this
  have key : ∀ x ∈ ds.class_indices.map (fun p =>
      ((countLabel ds.classes p.2 : ℚ) / (ds.classes.length : ℚ)) *
        ((dictLookup w p.2).getD 0)),
      x = 1 / (ds.class_indices.length : ℚ) := by
    intro x hx
    obtain ⟨p, hp, rfl⟩ := List.mem_map.mp hx
    have hm : p.2 ∈ ds.class_indices.map Prod.snd :=
      List.mem_map_of_mem Prod.snd hp
    have hmc := weight_mul_count ds w p.2 h hm
    have hpos := gcwLoop_count_pos ds.classes ds.classes.length
      ds.class_indices.length ds.class_indices [] w p.2 h hm
    have hn : (countLabel ds.classes p.2 : ℚ) ≠ 0 := by
      exact_mod_cast Nat.pos_iff_ne_zero.mp hpos
    have htotpos : 0 < ds.classes.length :=
      Nat.lt_of_lt_of_le hpos (countLabel_le_length ds.classes p.2)
    have ht : (ds.classes.length : ℚ) ≠ 0 := by
      exact_mod_cast Nat.pos_iff_ne_zero.mp htotpos
    have expand : ((countLabel ds.classes p.2 : ℚ) / (ds.classes.length : ℚ)) *
        ((dictLookup w p.2).getD 0) =
        ((dictLookup w p.2).getD 0) * (countLabel ds.classes p.2 : ℚ) /
          (ds.classes.length : ℚ) := by
      ring
    rw [expand, hmc, div_div,
      mul_comm ((ds.class_indices.length : ℚ)) ((ds.classes.length : ℚ)),
      ← div_div, div_self ht]
  rw [freqWeightedSum, List.sum_eq_card_nsmul _ _ key]
  rw [List.length_map, nsmul_eq_mul, mul_one_div, div_self (ne_of_gt hnc)]

/-- Witness for the amended C2 at the balanced dataset. -/
theorem C2_freq_weighted_sum_witness :
    freqWeightedSum dsBalanced [(0, 1), (1, 1)] = 1 :=
  C2_freq_weighted_sum dsBalanced [(0, 1), (1, 1)] gcw_balanced
    (by simp [dsBalanced])

/-- Claim C3: for every dataset with at least one sample in each class
(here: on which `get_class_weights` succeeds, which forces positive
counts), the weights are inversely proportional to class frequency: for
every pair of classes, `weight(c) * n_c = weight(d) * n_d`, and each
product equals `total_samples / n_classes`. -/
theorem C3_inverse_proportionality (ds : Dataset) (w : WeightDict)
    (name₁ name₂ : String) (l₁ l₂ : Nat)
    (h : get_class_weights ds = some w)
    (h₁ : (name₁, l₁) ∈ ds.class_indices)
    (h₂ : (name₂, l₂) ∈ ds.class_indices) :
    ((dictLookup w l₁).getD 0) * (countLabel ds.classes l₁ : ℚ) =
      ((dictLookup w l₂).getD 0) * (countLabel ds.classes l₂ : ℚ) ∧
    ((dictLookup w l₁).getD 0) * (countLabel ds.classes l₁ : ℚ) =
      (ds.classes.length : ℚ) / (ds.class_indices.length : ℚ) := by
  have e₁ := weight_mul_count ds w l₁ h (List.mem_map_of_mem Prod.snd h₁)
  have e₂ := weight_mul_count ds w l₂ h (List.mem_map_of_mem Prod.snd h₂)
  exact ⟨by rw [e₁, e₂], e₁⟩

/-- Witness for C3 at the imbalanced dataset: classes A and B with
counts 100 and 900 have `weight * count` equal, both being `1000 / 2`. -/
theorem C3_inverse_proportionality_witness :
    ((dictLookup [((0 : Nat), (5 : ℚ)), (1, 5 / 9)] 0).getD 0) *
        (countLabel dsImbalanced.classes 0 : ℚ) =
      ((dictLookup [((0 : Nat), (5 : ℚ)), (1, 5 / 9)] 1).getD 0) *
        (countLabel dsImbalanced.classes 1 : ℚ) :=
  (C3_inverse_proportionality dsImbalanced [(0, 5), (1, 5 / 9)] "A" "B" 0 1
    gcw_imbalanced
    (by rw [show dsImbalanced.class_indices = [("A", 0), ("B", 1)] from rfl]; simp)
    (by rw [show dsImbalanced.class_indices = [("A", 0), ("B", 1)] from rfl]; simp)).1

/-- Claim C8: `get_class_weights` only succeeds when every class of
`class_indices` has at least one sample in `classes`; on a dataset where
class `A` (label 0) has zero samples, the `1 / n` computation divides by
zero and the function fails instead of returning a dict. -/
theorem C8_zero_count_failure :
    (∀ (ds : Dataset) (w : WeightDict),
        get_class_weights ds = some w →
        ∀ p ∈ ds.class_indices, 0 < countLabel ds.classes p.2) ∧
    get_class_weights dsEmptyClass = none := by
  constructor
  · intro ds w h p hp
    exact gcwLoop_count_pos ds.classes ds.classes.length
      ds.class_indices.length ds.class_indices [] w p.2 h
      (List.mem_map_of_mem Prod.snd hp)
  · norm_num [get_class_weights, dsEmptyClass, gcwLoop, countLabel, List.filter]

/-- Witness for C8 at the balanced dataset: success implies class `A`
has a positive sample count. -/
theorem C8_zero_count_failure_witness :
    0 < countLabel dsBalanced.classes 0 :=
  C8_zero_count_failure.1 dsBalanced [(0, 1), (1, 1)] gcw_balanced ("A", 0)
    (by simp [dsBalanced])

/-- Claim C10: on success, the returned dict has exactly the labels of
`class_indices` as keys, one positive weight per class and no extra
keys, and the result is determined solely by `class_indices` and
`classes`. -/
theorem C10_key_set_positivity_determinism :
    (∀ (ds : Dataset) (w : WeightDict),
        get_class_weights ds = some w →
        (∀ k : Nat, (dictLookup w k).isSome = true ↔
            k ∈ ds.class_indices.map Prod.snd) ∧
        (∀ p ∈ ds.class_indices, 0 < (dictLookup w p.2).getD 0)) ∧
    (∀ ds₁ ds₂ : Dataset, ds₁.class_indices = ds₂.class_indices →
        ds₁.classes = ds₂.classes →
        get_class_weights ds₁ = get_class_weights ds₂) := by
  constructor
  · intro ds w h
    constructor
    · intro k
      constructor
      · intro hs
        by_contra hk
        have := gcwLoop_lookup_not_mem ds.classes ds.classes.length
          ds.class_indices.length ds.class_indices [] w k h hk
        rw [this] at hs
        simp [dictLookup] at hs
      · intro hk
        have := gcwLoop_lookup_mem ds.classes ds.classes.length
          ds.class_indices.length ds.class_indices [] w k h hk
        rw [this]
        rfl
    · intro p hp
      have hm : p.2 ∈ ds.class_indices.map Prod.snd :=
        List.mem_map_of_mem Prod.snd hp
      have hl := gcwLoop_lookup_mem ds.classes ds.classes.length
        ds.class_indices.length ds.class_indices [] w p.2 h hm
      have hpos := gcwLoop_count_pos ds.classes ds.classes.length
        ds.class_indices.length ds.class_indices [] w p.2 h hm
      have hncpos : 0 < ds.class_indices.length :=
        List.length_pos.mpr (List.ne_nil_of_mem hp)
      have htotpos : 0 < ds.classes.length :=
        Nat.lt_of_lt_of_le hpos (countLabel_le_length ds.classes p.2)
      rw [hl]
      simp only [Option.getD_some, classWeight]
      have c₁ : (0 : ℚ) < 1 / (countLabel ds.classes p.2 : ℚ) := by
        apply div_pos one_pos
        exact_mod_cast hpos
      have c₂ : (0 : ℚ) <
          (ds.classes.length : ℚ) / (ds.class_indices.length : ℚ) := by
        apply div_pos <;> exact_mod_cast ‹_›
      exact mul_pos c₁ c₂
  · intro ds₁ ds₂ h₁ h₂
    simp [get_class_weights, h₁, h₂]

/-- Witness for C10 at the balanced dataset: label 0 is a key and its
weight is positive. -/
theorem C10_key_set_positivity_determinism_witness :
    0 < (dictLookup [((0 : Nat), (1 : ℚ)), (1, 1)] 0).getD 0 :=
  ((C10_key_set_positivity_determinism.1 dsBalanced [(0, 1), (1, 1)]
    gcw_balanced).2) ("A", 0) (by simp [dsBalanced])

lemma lookupIndex_eq_none (l : List (String × Nat)) (key : String)
    (h : key ∉ l.map Prod.fst) : lookupIndex l key = none := by
  induction l with
  | nil => rfl
  | cons p rest ih =>
    obtain ⟨nm, lb⟩ := p
    simp only [List.map_cons, List.mem_cons] at h
    push_neg at h
    simp only [lookupIndex, if_neg (Ne.symm h.1)]
    exact ih h.2

/-- Anatomy of a successful run: the output directory did not exist,
and the trace is exactly the setup events followed by the two training
phases, the two weight saves and the plot, with the class weights
determined by the `--class-weights` flag. -/
lemma mainRun_success_shape (env : Env) (tr : List Event)
    (h : mainRun env = (tr, none)) :
    env.model_dir_exists = false ∧
    ∃ cw : Option WeightDict,
      ((env.class_weights_flag = false ∧ cw = none) ∨
        (env.class_weights_flag = true ∧
          ∃ wd, get_class_weights env.train_ds = some wd ∧ cw = some wd)) ∧
      tr = [Event.mkdir env.model,
            Event.mkdir (env.model ++ "/checkpoints"),
            Event.mkdir (env.model ++ "/training"),
            Event.loadDataset (env.data ++ "/train"),
            Event.loadDataset (env.data ++ "/validation"),
            Event.instantiateModel,
            Event.fitClassifier LR EPOCHS 0
              (get_callbacks (env.model ++ "/checkpoints")
                (env.model ++ "/logs")) cw,
            Event.saveWeights (env.model ++ "/model_no_ft.h5"),
            Event.fineTune LR_FT EPOCHS_FT (env.last_epoch + 1)
              (get_callbacks (env.model ++ "/checkpoints")
                (env.model ++ "/logs")) FINE_TUNE_AT cw,
            Event.saveWeights (env.model ++ "/model.h5"),
            Event.plotLearningCurves (env.model ++ "/training")] := by
  cases hd : env.model_dir_exists with
  | true => simp [mainRun, hd] at h
  | false =>
    refine ⟨rfl, ?_⟩
    simp only [mainRun, hd, Bool.false_eq_true, if_false] at h
    cases hlk : lookupIndex env.train_ds.class_indices "covid-19" with
    | none => rw [hlk] at h; simp at h
    | some covid19_label =>
      rw [hlk] at h
      cases hf : env.class_weights_flag with
      | false =>
        simp only [hf, Bool.false_eq_true, if_false] at h
        refine ⟨none, Or.inl ⟨rfl, rfl⟩, ?_⟩
        simp only [Prod.mk.injEq] at h
        rw [← h.1]
        rfl
      | true =>
        simp only [hf, if_true] at h
        cases hg : get_class_weights env.train_ds with
        | none => rw [hg] at h; simp at h
        | some wd =>
          rw [hg] at h
          refine ⟨some wd, Or.inr ⟨rfl, wd, rfl, rfl⟩, ?_⟩
          simp only [Option.map] at h
          simp only [Prod.mk.injEq] at h
          rw [← h.1]
          rfl

/-- Claim C4: whenever the model output path already exists, `main`
raises `FileExistsError` with an empty trace: no directory is created,
no dataset is loaded, no model is instantiated, and no training
occurs. -/
theorem C4_fail_fast_on_existing_dir (env : Env)
    (h : env.model_dir_exists = true) :
    mainRun env = ([], some (TrainError.fileExists env.model)) := by
  simp [mainRun, h]

/-- Witness for C4: an invocation whose output directory exists. -/
theorem C4_fail_fast_on_existing_dir_witness :
    mainRun envExisting = ([], some (TrainError.fileExists envExisting.model)) :=
  C4_fail_fast_on_existing_dir envExisting rfl

/-- Claim C9: `main` requires a class named exactly `covid-19`: on every
training dataset whose `class_indices` has no key `covid-19` (and a
fresh output directory), `main` stops with a `KeyError` after creating
the output directories and loading the two dataset splits, before any
model instantiation or training. -/
theorem C9_requires_covid19_class (env : Env)
    (hnd : env.model_dir_exists = false)
    (hkey : "covid-19" ∉ env.train_ds.class_indices.map Prod.fst) :
    mainRun env = ([Event.mkdir env.model,
      Event.mkdir (env.model ++ "/checkpoints"),
      Event.mkdir (env.model ++ "/training"),
      Event.loadDataset (env.data ++ "/train"),
      Event.loadDataset (env.data ++ "/validation")],
      some (TrainError.keyError "covid-19")) := by
  have hlk := lookupIndex_eq_none env.train_ds.class_indices "covid-19" hkey
  simp [mainRun, hnd, hlk]

/-- Witness for C9: a dataset with only `normal` and `pneumonia`. -/
theorem C9_requires_covid19_class_witness :
    mainRun envNoCovid = ([Event.mkdir envNoCovid.model,
      Event.mkdir (envNoCovid.model ++ "/checkpoints"),
      Event.mkdir (envNoCovid.model ++ "/training"),
      Event.loadDataset (envNoCovid.data ++ "/train"),
      Event.loadDataset (envNoCovid.data ++ "/validation")],
      some (TrainError.keyError "covid-19")) :=
  C9_requires_covid19_class envNoCovid rfl (by simp [envNoCovid, dsNoCovid])

/-- Claim C5: every successful run lays its outputs out under the model
directory `M`: final weights at `M/model.h5`, pre-fine-tune weights at
`M/model_no_ft.h5`, created directories `M/checkpoints` and
`M/training`, learning-curve plots saved under `M/training`, and the
callbacks passed to training write per-epoch checkpoint files named by
the (zero-padded) epoch number with extension `.h5` under
`M/checkpoints` and framework logs under `M/logs`. -/
theorem C5_output_layout (env : Env) (tr : List Event)
    (h : mainRun env = (tr, none)) :
    Event.mkdir (env.model ++ "/checkpoints") ∈ tr ∧
    Event.mkdir (env.model ++ "/training") ∈ tr ∧
    Event.saveWeights (env.model ++ "/model_no_ft.h5") ∈ tr ∧
    Event.saveWeights (env.model ++ "/model.h5") ∈ tr ∧
    Event.plotLearningCurves (env.model ++ "/training") ∈ tr ∧
    (∀ lr ep ie cb cw, Event.fitClassifier lr ep ie cb cw ∈ tr →
      cb.log_dir = env.model ++ "/logs" ∧
      cb.filepath_checkpoint =
        env.model ++ "/checkpoints" ++ "/\x7bepoch:02d\x7d.h5" ∧
      ∀ e, checkpointFileForEpoch (env.model ++ "/checkpoints") e =
        env.model ++ "/checkpoints" ++ "/" ++ pad2 e ++ ".h5") := by
  obtain ⟨-, cw, -, rfl⟩ := mainRun_success_shape env tr h
  refine ⟨by simp, by simp, by simp, by simp, by simp, ?_⟩
  intro lr ep ie cb cw' hm
  simp only [List.mem_cons, List.not_mem_nil, or_false] at hm
  simp at hm
  obtain ⟨-, -, -, hcb, -⟩ := hm
  subst hcb
  refine ⟨rfl, ?_, fun e => rfl⟩
  simp [get_callbacks, String.append_assoc]

/-- Witness for C5: the checkpoints directory is created in a concrete
successful run. -/
theorem C5_output_layout_witness :
    Event.mkdir (envPlain.model ++ "/checkpoints") ∈ (mainRun envPlain).1 :=
  (C5_output_layout envPlain (mainRun envPlain).1 rfl).1

/-- Claim C6: in every successful run the phases occur in sequence:
`fit_classifier` first, then the save of `model_no_ft.h5`, then
`fine_tune`, then the save of `model.h5`, and the learning-curve plot
last. -/
theorem C6_phase_sequence (env : Env) (tr : List Event)
    (h : mainRun env = (tr, none)) :
    ∃ cw : Option WeightDict,
      tr = [Event.mkdir env.model,
            Event.mkdir (env.model ++ "/checkpoints"),
            Event.mkdir (env.model ++ "/training"),
            Event.loadDataset (env.data ++ "/train"),
            Event.loadDataset (env.data ++ "/validation"),
            Event.instantiateModel,
            Event.fitClassifier LR EPOCHS 0
              (get_callbacks (env.model ++ "/checkpoints")
                (env.model ++ "/logs")) cw,
            Event.saveWeights (env.model ++ "/model_no_ft.h5"),
            Event.fineTune LR_FT EPOCHS_FT (env.last_epoch + 1)
              (get_callbacks (env.model ++ "/checkpoints")
                (env.model ++ "/logs")) FINE_TUNE_AT cw,
            Event.saveWeights (env.model ++ "/model.h5"),
            Event.plotLearningCurves (env.model ++ "/training")] := by
  obtain ⟨-, cw, -, htr⟩ := mainRun_success_shape env tr h
  exact ⟨cw, htr⟩

/-- Witness for C6: the concrete successful run without class weights
produces exactly this trace. -/
theorem C6_phase_sequence_witness :
    ∃ cw : Option WeightDict,
      (mainRun envPlain).1 =
        [Event.mkdir envPlain.model,
         Event.mkdir (envPlain.model ++ "/checkpoints"),
         Event.mkdir (envPlain.model ++ "/training"),
         Event.loadDataset (envPlain.data ++ "/train"),
         Event.loadDataset (envPlain.data ++ "/validation"),
         Event.instantiateModel,
         Event.fitClassifier LR EPOCHS 0
           (get_callbacks (envPlain.model ++ "/checkpoints")
             (envPlain.model ++ "/logs")) cw,
         Event.saveWeights (envPlain.model ++ "/model_no_ft.h5"),
         Event.fineTune LR_FT EPOCHS_FT (envPlain.last_epoch + 1)
           (get_callbacks (envPlain.model ++ "/checkpoints")
             (envPlain.model ++ "/logs")) FINE_TUNE_AT cw,
         Event.saveWeights (envPlain.model ++ "/model.h5"),
         Event.plotLearningCurves (envPlain.model ++ "/training")] :=
  C6_phase_sequence envPlain (mainRun envPlain).1 rfl

/-- Claim C7: class weights are computed and passed to both training
phases exactly when `--class-weights` is given; without the flag both
phases receive `none`. -/
theorem C7_class_weights_iff_flag (env : Env) (tr : List Event)
    (h : mainRun env = (tr, none)) :
    (env.class_weights_flag = false →
      (∃ cb, Event.fitClassifier LR EPOCHS 0 cb none ∈ tr ∧
        Event.fineTune LR_FT EPOCHS_FT (env.last_epoch + 1) cb
          FINE_TUNE_AT none ∈ tr) ∧
      (∀ lr ep ie cb cw, Event.fitClassifier lr ep ie cb cw ∈ tr →
        cw = none) ∧
      (∀ lr ep ie cb fta cw, Event.fineTune lr ep ie cb fta cw ∈ tr →
        cw = none)) ∧
    (env.class_weights_flag = true →
      ∃ wd, get_class_weights env.train_ds = some wd ∧
        ∃ cb, Event.fitClassifier LR EPOCHS 0 cb (some wd) ∈ tr ∧
          Event.fineTune LR_FT EPOCHS_FT (env.last_epoch + 1) cb
            FINE_TUNE_AT (some wd) ∈ tr) := by
  obtain ⟨-, cw, hcw, rfl⟩ := mainRun_success_shape env tr h
  constructor
  · intro hf
    rcases hcw with ⟨-, rfl⟩ | ⟨htrue, -⟩
    · refine ⟨⟨get_callbacks (env.model ++ "/checkpoints")
        (env.model ++ "/logs"), by simp, by simp⟩, ?_, ?_⟩
      · intro lr ep ie cb cw' hm
        simp at hm
        exact hm.2.2.2.2
      · intro lr ep ie cb fta cw' hm
        simp at hm
        exact hm.2.2.2.2.2
    · rw [hf] at htrue
      cases htrue
  · intro hf
    rcases hcw with ⟨hfalse, -⟩ | ⟨-, wd, hwd, rfl⟩
    · rw [hf] at hfalse
      cases hfalse
    · exact ⟨wd, hwd, get_callbacks (env.model ++ "/checkpoints")
        (env.model ++ "/logs"), by simp, by simp⟩

/-- Witness for C7: the concrete run with `--class-weights` passes the
computed weight dict to both phases. -/
theorem C7_class_weights_iff_flag_witness :
    ∃ wd, get_class_weights envWeighted.train_ds = some wd ∧
      ∃ cb, Event.fitClassifier LR EPOCHS 0 cb (some wd) ∈
          (mainRun envWeighted).1 ∧
        Event.fineTune LR_FT EPOCHS_FT (envWeighted.last_epoch + 1) cb
          FINE_TUNE_AT (some wd) ∈ (mainRun envWeighted).1 :=
  (C7_class_weights_iff_flag envWeighted (mainRun envWeighted).1 rfl).2 rfl
